import Mathlib

/-
Verification of the voiceForge concurrency core: a shallow embedding of the
processing-worker command protocol (src/src/dsp/processing.rs), the playback
engine (src/src/audio/playback.rs) and the orchestrator reconciliation logic
(src/src/main.rs), with theorems settling the specification claims.

Modelling conventions:
- f32/f64 sample and slider values are modelled as exact rationals; the
  floating-point operations reached by the claims (comparison, min, division,
  rounding, multiplication by a gain) are exact on the inputs examined.
- Machine integers (u32, u16, usize) are modelled as Nat; isize casts in
  seek_by_samples are modelled explicitly with two's-complement ranges.
- External calls (the WORLD vocoder FFI, the effects chain, the decoder and
  the filesystem helpers — all declared external collaborators in the spec)
  are fields of an Externals record the definitions are parameterised over.
-/

namespace VoiceForge

/-- Decoded interleaved PCM audio, from AudioData in src/src/audio/decoder.rs. -/
structure AudioData where
  samples : List ℚ
  sample_rate : ℕ
  channels : ℕ
  deriving Repr, DecidableEq

/-- Per-band EQ gains, from EqParams in src/src/dsp/effects.rs. -/
structure EqParams where
  gains : List ℚ
  deriving Repr, DecidableEq

/-- EqParams.is_neutral from src/src/dsp/effects.rs: every band gain within 1e-6 of 0. -/
def EqParams.is_neutral (p : EqParams) : Bool :=
  p.gains.all (fun g => |g| < 1 / 1000000)

/-- Effects-chain parameters, from EffectsParams in src/src/dsp/effects.rs. -/
structure EffectsParams where
  gain_db : ℚ
  low_cut_hz : ℚ
  high_cut_hz : ℚ
  compressor_thresh_db : ℚ
  reverb_mix : ℚ
  pitch_shift_semitones : ℚ
  eq : EqParams
  deriving Repr, DecidableEq

/-- EffectsParams.is_neutral from src/src/dsp/effects.rs (gain excluded: applied live). -/
def EffectsParams.is_neutral (p : EffectsParams) : Bool :=
  p.low_cut_hz ≤ 20 && p.high_cut_hz ≥ 20000 && p.compressor_thresh_db ≥ 0 &&
    |p.reverb_mix| < 1 / 1000000 && |p.pitch_shift_semitones| < 1 / 1000000 &&
    p.eq.is_neutral

/-- WORLD slider values, from WorldSliderValues in src/src/dsp/modifier.rs.
The bypass flag is read by run_resynthesize in src/src/dsp/processing.rs
(the field is absent from the stale modifier.rs declaration in this snapshot;
it is carried here as the Bool that processing.rs consumes). -/
structure WorldSliderValues where
  pitch_shift : ℚ
  pitch_range : ℚ
  speed : ℚ
  breathiness : ℚ
  formant_shift : ℚ
  spectral_tilt : ℚ
  bypass : Bool
  deriving Repr, DecidableEq

/-- WorldSliderValues.is_neutral from src/src/dsp/modifier.rs. -/
def WorldSliderValues.is_neutral (v : WorldSliderValues) : Bool :=
  v.pitch_shift = 0 && v.pitch_range = 1 && v.speed = 1 && v.breathiness = 0 &&
    v.formant_shift = 0 && v.spectral_tilt = 0

/-- WORLD vocoder parameters, from WorldParams in src/crates/world-sys/src/safe.rs. -/
structure WorldParams where
  f0 : List ℚ
  temporal_positions : List ℚ
  spectrogram : List (List ℚ)
  aperiodicity : List (List ℚ)
  fft_size : ℕ
  frame_period : ℚ
  deriving Repr, DecidableEq

/- ----------------------------------------------------------------------
Orchestrator position arithmetic (src/src/main.rs) and seeks
(src/src/audio/playback.rs).
---------------------------------------------------------------------- -/

/-- Rust usize-to-isize cast (two's-complement reinterpretation), as performed
by seek_by_samples in src/src/audio/playback.rs on the loaded position. -/
def usizeAsIsize (n : ℕ) : ℤ :=
  if n < 2 ^ 63 then (n : ℤ) else (n : ℤ) - 2 ^ 64

/-- Rust isize::saturating_add. -/
def saturatingAddIsize (a b : ℤ) : ℤ :=
  max (-(2 ^ 63)) (min (2 ^ 63 - 1) (a + b))

/-- PlaybackState::seek_by_samples from src/src/audio/playback.rs lines 50-55:
new position is (current as isize).saturating_add(offset).clamp(0, max) as usize. -/
def seek_by_samples (current : ℕ) (offset : ℤ) (max_samples : ℕ) : ℕ :=
  (max 0 (min (usizeAsIsize max_samples)
    (saturatingAddIsize (usizeAsIsize current) offset))).toNat

/-- Channel-count reconciliation from src/src/main.rs lines 186-191: when the
newly produced buffer's channel count differs from the previous one, the
frame index is preserved: new position is
min ((old position / old channels) * new channels) (new buffer length). -/
def channelRemap (old_channels new_channels current_pos new_len : ℕ) : ℕ :=
  min ((current_pos / old_channels) * new_channels) new_len

/-- The SynthesisDone position reconciliation of src/src/main.rs lines 176-202:
the channel remap runs only when the channel counts differ and are both
positive; then the freshly reloaded position is clamped to the new length
(H-4 clamp, main.rs lines 200-202). reloaded_pos models the second atomic
load of the position at main.rs line 201. -/
def synthesisDonePosition (old_channels : ℕ) (new_audio : AudioData)
    (current_pos reloaded_pos : ℕ) : ℕ × ℕ :=
  let stored1 :=
    if old_channels ≠ new_audio.channels ∧ 0 < old_channels ∧ 0 < new_audio.channels then
      channelRemap old_channels new_audio.channels current_pos new_audio.samples.length
    else current_pos
  (stored1, min reloaded_pos new_audio.samples.length)

/-- Rust f64::round (round half away from zero), on the nonnegative rationals
reached by the A/B toggle. -/
def roundHalfUp (x : ℚ) : ℤ := ⌊x + 1 / 2⌋

/-- The A/B toggle position rescale of src/src/main.rs lines 338-356: when the
old and new buffer lengths differ, position is rescaled by the fraction
pos / old_len (0 when old_len = 0), rounded, and min-clamped to new_len;
when the lengths agree the position is only clamped. f64 arithmetic is
modelled by exact rationals. -/
def abTogglePosition (old_len new_len pos : ℕ) : ℕ :=
  if old_len ≠ new_len then
    (min (roundHalfUp ((if 0 < old_len then (pos : ℚ) / (old_len : ℚ) else 0) *
      (new_len : ℚ))) (new_len : ℤ)).toNat
  else
    min pos new_len

/-- Stated from the spec (section 4.3, for the C6 refinement): new position is
min ((old position / old channels) * new channels) (new sample count),
with integer division. -/
def channelRemapSpec (old_channels new_channels old_position sample_count : ℕ) : ℕ :=
  min ((old_position / old_channels) * new_channels) sample_count

/-- Stated from the spec (section 4.3, for the C7 refinement): fraction is
old position / old length, new position is round (fraction * new length)
clamped to the new length; a zero old length yields 0. -/
def abRescaleSpec (old_len new_len pos : ℕ) : ℕ :=
  if 0 < old_len then
    min (roundHalfUp (((pos : ℚ) / (old_len : ℚ)) * (new_len : ℚ))) (new_len : ℤ) |>.toNat
  else 0

/- ----------------------------------------------------------------------
Playback engine: the real-time callback write_audio_data and swap_audio
(src/src/audio/playback.rs).
---------------------------------------------------------------------- -/

/-- One output frame of the callback inner loop (playback.rs lines 282-291):
slot dev_ch reads source channel dev_ch mod ac at index pos + src_ch, 0 past
the end, times the live gain. -/
def writeFrame (samples : List ℚ) (ac : ℕ) (gain : ℚ) (pos : ℕ) (chunkLen : ℕ) :
    List ℚ :=
  (List.range chunkLen).map (fun devCh => samples.getD (pos + devCh % ac) 0 * gain)

/-- The frame loop of write_audio_data (playback.rs lines 270-293), processing
the list of chunk lengths produced by chunks_mut: at each frame, a position
at or past the end either wraps to 0 (looping, non-empty buffer) and falls
through to the sample write, or emits silence for the frame and leaves the
position unchanged; otherwise the frame is written and position advances by
the source channel count. -/
def writeChunks (samples : List ℚ) (ac : ℕ) (gain : ℚ) (looping : Bool) :
    List ℕ → ℕ → List ℚ × ℕ
  | [], pos => ([], pos)
  | len :: rest, pos =>
    if pos ≥ samples.length then
      if looping ∧ 0 < samples.length then
        let r := writeChunks samples ac gain looping rest (0 + ac)
        (writeFrame samples ac gain 0 len ++ r.1, r.2)
      else
        let r := writeChunks samples ac gain looping rest pos
        (List.replicate len 0 ++ r.1, r.2)
    else
      let r := writeChunks samples ac gain looping rest (pos + ac)
      (writeFrame samples ac gain pos len ++ r.1, r.2)

/-- The chunk lengths yielded by output.chunks_mut(dc) on an output slice of
length outLen: full chunks of dc, then the remainder when nonzero. -/
def chunkSizes (outLen dc : ℕ) : List ℕ :=
  List.replicate (outLen / dc) dc ++ (if outLen % dc = 0 then [] else [outLen % dc])

/-- write_audio_data from src/src/audio/playback.rs lines 228-296, one
callback invocation. playing, lockAcquired model the playing atomic and the
try_read outcome; the result is the written output and the final value of
the position atomic (unchanged on the three early-return silence paths,
which return before the store at line 295). -/
def write_audio_data (playing lockAcquired : Bool) (a : AudioData) (dc outLen : ℕ)
    (posInit : ℕ) (gain : ℚ) (looping : Bool) : List ℚ × ℕ :=
  if ¬playing then (List.replicate outLen 0, posInit)
  else if ¬lockAcquired then (List.replicate outLen 0, posInit)
  else if a.channels = 0 ∨ dc = 0 then (List.replicate outLen 0, posInit)
  else writeChunks a.samples a.channels gain looping (chunkSizes outLen dc) posInit

/-- The shared state guarded by the playback RwLock, paired with the position
atomic, as observed together by the callback after a successful try_read. -/
structure SharedAudio where
  buffer : AudioData
  position : ℕ
  deriving Repr, DecidableEq

/-- swap_audio from src/src/audio/playback.rs lines 223-226, as it stands in
this snapshot: takes the write lock and replaces the buffer reference; it
accepts no position and performs no position write. -/
def swap_audio (s : SharedAudio) (new_audio : AudioData) : SharedAudio :=
  { s with buffer := new_audio }

/- ----------------------------------------------------------------------
Processing worker (src/src/dsp/processing.rs, src/src/dsp/world.rs).
---------------------------------------------------------------------- -/

/-- Commands sent to the processing thread, from ProcessingCommand in
src/src/dsp/processing.rs lines 15-22. The Analyze variant is the one sent
by src/src/main.rs lines 101 and 274-275; it is missing from the stale enum
declaration in this snapshot's processing.rs and is modelled from the spec
(section 3: Analyze(buffer)). -/
inductive ProcessingCommand where
  | Load (path : String)
  | ScanDirectory (pathPrefix : String)
  | PrecheckAudio (path : String)
  | Analyze (a : AudioData)
  | Resynthesize (w : WorldSliderValues) (fx : EffectsParams)
  | ReapplyEffects (fx : EffectsParams)
  | Shutdown
  deriving Repr, DecidableEq

/-- Results sent back to the main thread, from ProcessingResult in
src/src/dsp/processing.rs lines 25-33. -/
inductive ProcessingResult where
  | AudioReady (a : AudioData) (path : String)
  | AnalysisDone (a : AudioData)
  | SynthesisDone (a : AudioData)
  | Status (msg : String)
  | DirectoryListing (echo : String) (entries : List String)
  | AudioPrecheckDone (path : String)
  | AudioPrecheckFailed (path : String) (err : String)
  deriving Repr, DecidableEq

/-- The external collaborators the worker calls into (spec section 6): the
WORLD vocoder FFI (world_sys), the effects chain, the decoder and the
filesystem helpers, plus the slider-driven parameter modification of
src/src/dsp/modifier.rs whose transcendental f64 arithmetic (powf, log2)
is kept opaque; no claim inspects its output. Errors are carried as their
displayed message strings. -/
structure Externals where
  analyzePcts : List ℕ
  worldSysAnalyze : List ℚ → ℕ → WorldParams
  worldSysSynthesize : WorldParams → ℕ → Except String (List ℚ)
  applyEffectsChain : List ℚ → ℕ → EffectsParams → List ℚ
  modifierApply : WorldParams → WorldSliderValues → WorldParams
  decodePcts : String → List ℕ
  decodeFile : String → Except String AudioData
  scanDir : String → List String
  precheckFile : String → Except String Unit

/-- The worker-private caches owned by processing_loop, from
src/src/dsp/processing.rs lines 162-165. -/
structure WorkerState where
  cached_params : Option WorldParams
  original_mono : Option AudioData
  post_world_audio : Option AudioData
  sample_rate : ℕ
  deriving Repr, DecidableEq

/-- Outcome of run_analyze / run_resynthesize: updated caches, the results
sent, and the Rust return flag. -/
structure RunRes where
  st : WorkerState
  out : List ProcessingResult
  ok : Bool
  deriving Repr, DecidableEq

/-- to_mono_f64 from src/src/dsp/world.rs lines 5-22: zero channels gives an
empty buffer, mono is passed through, otherwise chunks_exact(channels)
frames are averaged (droppping any trailing partial frame). -/
def to_mono_f64 (a : AudioData) : List ℚ :=
  if a.channels = 0 then []
  else if a.channels = 1 then a.samples
  else
    (List.range (a.samples.length / a.channels)).map (fun i =>
      (((List.range a.channels).map (fun c => a.samples.getD (i * a.channels + c) 0)).sum)
        / (a.channels : ℚ))

/-- to_mono from src/src/dsp/world.rs lines 36-62: same downmix at f32,
producing a 1-channel AudioData (empty on zero channels). -/
def to_mono (a : AudioData) : AudioData :=
  if a.channels = 0 then { samples := [], sample_rate := a.sample_rate, channels := 1 }
  else if a.channels = 1 then a
  else { samples := to_mono_f64 a, sample_rate := a.sample_rate, channels := 1 }

/-- world::analyze_with_progress from src/src/dsp/world.rs lines 70-94: the
empty-audio and zero-rate guards run before the FFI call, which itself
always returns parameters. -/
def world_analyze (ext : Externals) (a : AudioData) : Except String WorldParams :=
  let mono := to_mono_f64 a
  if mono.isEmpty then Except.error "audio is empty (no samples or zero channels)"
  else if a.sample_rate = 0 then Except.error "sample_rate must be positive"
  else Except.ok (ext.worldSysAnalyze mono a.sample_rate)

/-- world::synthesize from src/src/dsp/world.rs lines 110-113: the world_sys
call followed by from_mono_f64 (mono AudioData at the given rate). -/
def world_synthesize (ext : Externals) (p : WorldParams) (sr : ℕ) :
    Except String AudioData :=
  (ext.worldSysSynthesize p sr).map
    (fun samples => { samples := samples, sample_rate := sr, channels := 1 })

/-- apply_fx_chain from src/src/dsp/processing.rs lines 565-582: neutral
effects return the audio unchanged, otherwise the external effects chain
runs on the samples. -/
def apply_fx_chain (ext : Externals) (a : AudioData) (params : EffectsParams) :
    AudioData :=
  if params.is_neutral then a
  else { samples := ext.applyEffectsChain a.samples a.sample_rate params,
         sample_rate := a.sample_rate, channels := a.channels }

/-- run_analyze from src/src/dsp/processing.rs lines 83-112: records the
sample rate (even on failure), emits the progress statuses sent from inside
the external call, then on success caches the parameters and the mono
baseline (also as the post-WORLD buffer) and emits AnalysisDone; on failure
emits an analysis-error Status. -/
def run_analyze (ext : Externals) (a : AudioData) (st : WorkerState) : RunRes :=
  let st0 := { st with sample_rate := a.sample_rate }
  match world_analyze ext a with
  | Except.ok params =>
    let mono := to_mono a
    let st1 := { st0 with
      cached_params := some params
      original_mono := some mono
      post_world_audio := some mono }
    { st := st1,
      out := (ext.analyzePcts.map
          (fun pct => ProcessingResult.Status ("Analyzing... " ++ toString pct ++ "%")))
        ++ [ProcessingResult.AnalysisDone mono],
      ok := true }
  | Except.error e =>
    { st := st0, out := [ProcessingResult.Status ("Analysis error: " ++ e)], ok := false }

/-- run_resynthesize from src/src/dsp/processing.rs lines 115-159: bypass or
neutral sliders shortcut to the cached mono original (nothing emitted when
it is absent); otherwise stage 1 modifies the cached parameters (nothing
further when they are absent) and stage 2 synthesizes, aborting with a
Synthesis-error Status on failure; stage 3 caches the pre-effects audio,
applies the effects chain and emits SynthesisDone. -/
def run_resynthesize (ext : Externals) (latest_world : WorldSliderValues)
    (latest_fx : EffectsParams) (st : WorkerState) : RunRes :=
  let stage3 : AudioData → List ProcessingResult → RunRes := fun world_audio pre =>
    { st := { st with post_world_audio := some world_audio },
      out := pre ++ [ProcessingResult.Status "Applying effects... (3/3)",
        ProcessingResult.SynthesisDone (apply_fx_chain ext world_audio latest_fx)],
      ok := true }
  if latest_world.bypass || latest_world.is_neutral then
    match st.original_mono with
    | some mono => stage3 mono []
    | none => { st := st, out := [], ok := false }
  else
    let s1 := ProcessingResult.Status "Modifying parameters... (1/3)"
    match st.cached_params with
    | none => { st := st, out := [s1], ok := false }
    | some params =>
      let modified := ext.modifierApply params latest_world
      let s2 := ProcessingResult.Status "Synthesizing voice... (2/3)"
      match world_synthesize ext modified st.sample_rate with
      | Except.error e =>
        { st := st,
          out := [s1, s2, ProcessingResult.Status ("Synthesis error: " ++ e)],
          ok := false }
      | Except.ok world_audio => stage3 world_audio [s1, s2]

/-- run_load_file from src/src/dsp/processing.rs lines 532-562: a Decoding
status and decoder progress statuses, then on success AudioReady followed
by run_analyze, and on failure a Load-error Status. -/
def run_load_file (ext : Externals) (path : String) (st : WorkerState) :
    WorkerState × List ProcessingResult :=
  let pre := ProcessingResult.Status "Decoding..." ::
    (ext.decodePcts path).map
      (fun pct => ProcessingResult.Status ("Decoding... " ++ toString pct ++ "%"))
  match ext.decodeFile path with
  | Except.ok audio_data =>
    let r := run_analyze ext audio_data st
    (r.st, pre ++ [ProcessingResult.AudioReady audio_data path] ++ r.out)
  | Except.error e =>
    (st, pre ++ [ProcessingResult.Status ("Load error: " ++ e)])

/-- The precheck dispatch shared by handle_command and the drain loops
(src/src/dsp/processing.rs lines 232-241 and clones). -/
def precheckResult (ext : Externals) (path : String) : ProcessingResult :=
  match ext.precheckFile path with
  | Except.ok _ => ProcessingResult.AudioPrecheckDone path
  | Except.error e => ProcessingResult.AudioPrecheckFailed path e

/-- How a drain loop of handle_command ended: drained to an empty channel
with the latest retained slider and effects parameters, aborted by a Load
(the new file job ran, the pending batch is dropped), or told to exit by a
Shutdown. -/
inductive DrainTag where
  | drained (lw : WorldSliderValues) (lf : EffectsParams)
  | aborted
  | exited
  deriving Repr, DecidableEq

/-- Result of a drain loop: the tag, the caches and results as mutated and
emitted along the way, and the commands still queued. -/
structure DrainRes where
  tag : DrainTag
  st : WorkerState
  out : List ProcessingResult
  rest : List ProcessingCommand
  deriving Repr

/-- The Resynthesize drain loop of handle_command, src/src/dsp/processing.rs
lines 250-290 (and its verbatim clone at lines 341-380): newer Resynthesize
replaces both parameter sets, ReapplyEffects replaces the effects set,
Shutdown exits, Load runs the new file job and aborts the batch,
ScanDirectory and PrecheckAudio answer inline and draining continues, and an
empty channel ends the drain. The Analyze arm is modelled from the spec
(section 4.1: an Analyze encountered while draining is never dropped — it is
executed inline and draining continues); the variant is absent from this
snapshot's processing.rs, which only has its caller in src/src/main.rs. -/
def drainResynthesize (ext : Externals) :
    List ProcessingCommand → WorldSliderValues → EffectsParams → WorkerState →
      List ProcessingResult → DrainRes
  | [], lw, lf, st, out => { tag := DrainTag.drained lw lf, st := st, out := out, rest := [] }
  | c :: queued, lw, lf, st, out =>
    match c with
    | ProcessingCommand.Resynthesize w fx => drainResynthesize ext queued w fx st out
    | ProcessingCommand.ReapplyEffects fx => drainResynthesize ext queued lw fx st out
    | ProcessingCommand.Shutdown =>
      { tag := DrainTag.exited, st := st, out := out, rest := queued }
    | ProcessingCommand.Load path =>
      let r := run_load_file ext path st
      { tag := DrainTag.aborted, st := r.1, out := out ++ r.2, rest := queued }
    | ProcessingCommand.ScanDirectory p =>
      drainResynthesize ext queued lw lf st
        (out ++ [ProcessingResult.DirectoryListing p (ext.scanDir p)])
    | ProcessingCommand.PrecheckAudio path =>
      drainResynthesize ext queued lw lf st (out ++ [precheckResult ext path])
    | ProcessingCommand.Analyze a =>
      let r := run_analyze ext a st
      drainResynthesize ext queued lw lf r.st (out ++ r.out)

/-- How the ReapplyEffects drain ended: drained to an empty channel keeping
only effects parameters, superseded by a queued Resynthesize (whose own
drain retained lw, lf), aborted by a Load, or told to exit by a Shutdown. -/
inductive ReapplyTag where
  | effectsOnly (lf : EffectsParams)
  | superseded (lw : WorldSliderValues) (lf : EffectsParams)
  | aborted
  | exited
  deriving Repr, DecidableEq

/-- Result of the ReapplyEffects drain loop. -/
structure ReapplyRes where
  tag : ReapplyTag
  st : WorkerState
  out : List ProcessingResult
  rest : List ProcessingCommand
  deriving Repr

/-- The ReapplyEffects drain loop of handle_command,
src/src/dsp/processing.rs lines 303-397: newer ReapplyEffects replaces the
effects set, Load runs the new file job and aborts, ScanDirectory and
PrecheckAudio answer inline, a queued Resynthesize supersedes the
effects-only job and hands over to the Resynthesize drain (lines 336-393),
Shutdown exits, and an empty channel ends the drain. The Analyze arm is
modelled from the spec exactly as in drainResynthesize. -/
def drainReapply (ext : Externals) :
    List ProcessingCommand → EffectsParams → WorkerState → List ProcessingResult →
      ReapplyRes
  | [], lf, st, out => { tag := ReapplyTag.effectsOnly lf, st := st, out := out, rest := [] }
  | c :: queued, lf, st, out =>
    match c with
    | ProcessingCommand.ReapplyEffects fx => drainReapply ext queued fx st out
    | ProcessingCommand.Load path =>
      let r := run_load_file ext path st
      { tag := ReapplyTag.aborted, st := r.1, out := out ++ r.2, rest := queued }
    | ProcessingCommand.ScanDirectory p =>
      drainReapply ext queued lf st
        (out ++ [ProcessingResult.DirectoryListing p (ext.scanDir p)])
    | ProcessingCommand.PrecheckAudio path =>
      drainReapply ext queued lf st (out ++ [precheckResult ext path])
    | ProcessingCommand.Resynthesize w fx =>
      let d := drainResynthesize ext queued w fx st out
      match d.tag with
      | DrainTag.drained lw lf2 =>
        { tag := ReapplyTag.superseded lw lf2, st := d.st, out := d.out, rest := d.rest }
      | DrainTag.aborted =>
        { tag := ReapplyTag.aborted, st := d.st, out := d.out, rest := d.rest }
      | DrainTag.exited =>
        { tag := ReapplyTag.exited, st := d.st, out := d.out, rest := d.rest }
    | ProcessingCommand.Shutdown =>
      { tag := ReapplyTag.exited, st := st, out := out, rest := queued }
    | ProcessingCommand.Analyze a =>
      let r := run_analyze ext a st
      drainReapply ext queued lf r.st (out ++ r.out)

/-- Result of handling one command: the caches, the results emitted, the
commands left on the channel, and the should-exit flag returned to
processing_loop. -/
structure HandleRes where
  st : WorkerState
  out : List ProcessingResult
  rest : List ProcessingCommand
  stop : Bool
  deriving Repr

/-- handle_command from src/src/dsp/processing.rs lines 208-407. queued is
the current content of the command channel consumed by try_recv during the
drains. The Resynthesize arm returns at once, draining nothing, when no
parameters are cached (lines 243-245); otherwise it drains and runs one
resynthesis with the latest retained parameters. The ReapplyEffects arm
drains; effects-only completion reprocesses the cached post-WORLD audio
when present (lines 399-402), and a superseding Resynthesize runs a full
resynthesis only when parameters are cached (lines 381-391). The top-level
Analyze arm is modelled from the spec (section 4.1 analyze pipeline); the
variant is absent from this snapshot's processing.rs. -/
def handle_command (ext : Externals) (cmd : ProcessingCommand)
    (queued : List ProcessingCommand) (st : WorkerState) : HandleRes :=
  match cmd with
  | ProcessingCommand.Load path =>
    let r := run_load_file ext path st
    { st := r.1, out := r.2, rest := queued, stop := false }
  | ProcessingCommand.ScanDirectory p =>
    { st := st, out := [ProcessingResult.DirectoryListing p (ext.scanDir p)],
      rest := queued, stop := false }
  | ProcessingCommand.PrecheckAudio path =>
    { st := st, out := [precheckResult ext path], rest := queued, stop := false }
  | ProcessingCommand.Analyze a =>
    let r := run_analyze ext a st
    { st := r.st, out := r.out, rest := queued, stop := false }
  | ProcessingCommand.Resynthesize w fx =>
    if st.cached_params.isNone then
      { st := st, out := [], rest := queued, stop := false }
    else
      let d := drainResynthesize ext queued w fx st []
      match d.tag with
      | DrainTag.drained lw lf =>
        let r := run_resynthesize ext lw lf d.st
        { st := r.st, out := d.out ++ r.out, rest := d.rest, stop := false }
      | DrainTag.aborted => { st := d.st, out := d.out, rest := d.rest, stop := false }
      | DrainTag.exited => { st := d.st, out := d.out, rest := d.rest, stop := true }
  | ProcessingCommand.ReapplyEffects fx =>
    let d := drainReapply ext queued fx st []
    match d.tag with
    | ReapplyTag.effectsOnly lf =>
      match d.st.post_world_audio with
      | some cached =>
        { st := d.st,
          out := d.out ++ [ProcessingResult.SynthesisDone (apply_fx_chain ext cached lf)],
          rest := d.rest, stop := false }
      | none => { st := d.st, out := d.out, rest := d.rest, stop := false }
    | ReapplyTag.superseded lw lf =>
      if d.st.cached_params.isSome then
        let r := run_resynthesize ext lw lf d.st
        { st := r.st, out := d.out ++ r.out, rest := d.rest, stop := false }
      else { st := d.st, out := d.out, rest := d.rest, stop := false }
    | ReapplyTag.aborted => { st := d.st, out := d.out, rest := d.rest, stop := false }
    | ReapplyTag.exited => { st := d.st, out := d.out, rest := d.rest, stop := true }
  | ProcessingCommand.Shutdown => { st := st, out := [], rest := queued, stop := true }

/-- A drain never re-enqueues: what remains on the channel is a suffix of
what was queued. -/
theorem drainResynthesize_rest_length (ext : Externals) (q : List ProcessingCommand)
    (lw : WorldSliderValues) (lf : EffectsParams) (st : WorkerState)
    (out : List ProcessingResult) :
    (drainResynthesize ext q lw lf st out).rest.length ≤ q.length := by
  induction q generalizing lw lf st out with
  | nil => simp [drainResynthesize]
  | cons c queued ih =>
    cases c with
    | Load path => simpa [drainResynthesize] using Nat.le_succ queued.length
    | ScanDirectory p =>
      simpa [drainResynthesize] using le_trans (ih _ _ _ _) (Nat.le_succ _)
    | PrecheckAudio path =>
      simpa [drainResynthesize] using le_trans (ih _ _ _ _) (Nat.le_succ _)
    | Analyze a =>
      simpa [drainResynthesize] using le_trans (ih _ _ _ _) (Nat.le_succ _)
    | Resynthesize w fx =>
      simpa [drainResynthesize] using le_trans (ih _ _ _ _) (Nat.le_succ _)
    | ReapplyEffects fx =>
      simpa [drainResynthesize] using le_trans (ih _ _ _ _) (Nat.le_succ _)
    | Shutdown => simpa [drainResynthesize] using Nat.le_succ queued.length

/-- The ReapplyEffects drain never re-enqueues either. -/
theorem drainReapply_rest_length (ext : Externals) (q : List ProcessingCommand)
    (lf : EffectsParams) (st : WorkerState) (out : List ProcessingResult) :
    (drainReapply ext q lf st out).rest.length ≤ q.length := by
  induction q generalizing lf st out with
  | nil => simp [drainReapply]
  | cons c queued ih =>
    cases c with
    | Load path => simpa [drainReapply] using Nat.le_succ queued.length
    | ScanDirectory p =>
      simpa [drainReapply] using le_trans (ih _ _ _) (Nat.le_succ _)
    | PrecheckAudio path =>
      simpa [drainReapply] using le_trans (ih _ _ _) (Nat.le_succ _)
    | Analyze a =>
      simpa [drainReapply] using le_trans (ih _ _ _) (Nat.le_succ _)
    | ReapplyEffects fx =>
      simpa [drainReapply] using le_trans (ih _ _ _) (Nat.le_succ _)
    | Shutdown => simpa [drainReapply] using Nat.le_succ queued.length
    | Resynthesize w fx =>
      have h := drainResynthesize_rest_length ext queued w fx st out
      simp only [drainReapply]
      rcases hd : drainResynthesize ext queued w fx st out with ⟨tag, st2, out2, rest2⟩
      rw [hd] at h
      cases tag <;> simpa using le_trans h (Nat.le_succ _)

/-- handle_command leaves a suffix of the queued commands on the channel. -/
theorem handle_command_rest_length (ext : Externals) (cmd : ProcessingCommand)
    (q : List ProcessingCommand) (st : WorkerState) :
    (handle_command ext cmd q st).rest.length ≤ q.length := by
  cases cmd with
  | Load path => simp [handle_command]
  | ScanDirectory p => simp [handle_command]
  | PrecheckAudio path => simp [handle_command]
  | Analyze a => simp [handle_command]
  | Shutdown => simp [handle_command]
  | Resynthesize w fx =>
    simp only [handle_command]
    split
    · exact le_refl _
    · have h := drainResynthesize_rest_length ext q w fx st []
      rcases hd : drainResynthesize ext q w fx st [] with ⟨tag, st2, out2, rest2⟩
      rw [hd] at h
      cases tag <;> simpa using h
  | ReapplyEffects fx =>
    simp only [handle_command]
    have h := drainReapply_rest_length ext q fx st []
    rcases hd : drainReapply ext q fx st [] with ⟨tag, st2, out2, rest2⟩
    rw [hd] at h
    cases tag with
    | effectsOnly lf =>
      cases st2.post_world_audio <;> simpa using h
    | superseded lw lf =>
      by_cases hc : st2.cached_params.isSome <;> simp [hc] <;> simpa using h
    | aborted => simpa using h
    | exited => simpa using h

/-- What catch_unwind catches for one command dispatch: the panic payload
message, the results the dispatch had already sent and the queued commands
it had already consumed before panicking, and the caches as the panicking
dispatch left them. -/
structure PanicInfo where
  msg : String
  partialOut : List ProcessingResult
  consumed : ℕ
  midState : WorkerState

/-- The conservative reset after a caught panic, src/src/dsp/processing.rs
lines 199-201: all three worker-private caches are cleared (the sample rate
is not touched there). -/
def clearCaches (st : WorkerState) : WorkerState :=
  { st with
    cached_params := none
    original_mono := none
    post_world_audio := none }

/-- processing_loop from src/src/dsp/processing.rs lines 161-205. Each
command is dispatched inside a catch boundary, modelled by the oracle po:
some means the dispatch panicked (with the given payload and partial
effects), none means handle_command ran to completion. A caught panic sends
one internal-error Status, clears the caches and keeps looping; a normal
dispatch returning true ends the thread. -/
def processing_loop (ext : Externals)
    (po : ProcessingCommand → List ProcessingCommand → WorkerState → Option PanicInfo) :
    List ProcessingCommand → WorkerState → List ProcessingResult
  | [], _ => []
  | c :: q, st =>
    match po c q st with
    | some pinfo =>
      pinfo.partialOut ++ [ProcessingResult.Status ("Internal error: " ++ pinfo.msg)]
        ++ processing_loop ext po (q.drop pinfo.consumed) (clearCaches pinfo.midState)
    | none =>
      let r := handle_command ext c q st
      r.out ++ (if r.stop then [] else processing_loop ext po r.rest r.st)
termination_by cmds _ => cmds.length
decreasing_by
  · simp only [List.length_cons, List.length_drop]
    omega
  · have := handle_command_rest_length ext c q st
    simp only [List.length_cons]
    omega

/- ----------------------------------------------------------------------
Concrete fixtures used by counterexamples and witnesses.
---------------------------------------------------------------------- -/

/-- A 1000-sample mono buffer. -/
def bigBuf : AudioData :=
  { samples := List.replicate 1000 0, sample_rate := 44100, channels := 1 }

/-- A 100-sample mono buffer. -/
def smallBuf : AudioData :=
  { samples := List.replicate 100 0, sample_rate := 44100, channels := 1 }

/- ----------------------------------------------------------------------
Claim theorems: orchestrator and playback engine.
---------------------------------------------------------------------- -/

/-- Claim C2 (code bug evidence). The claim states that replacing the active
buffer rewrites the supplied position inside the same critical section, so
the callback never observes the new buffer with a position computed against
the old buffer's length. The swap_audio defined in this snapshot's
src/src/audio/playback.rs lines 223-226 takes no position at all and leaves
the position atomic untouched — contradicting its caller at
src/src/main.rs lines 199-210, whose H-4 comments state the clamp happens
inside swap_audio's write lock (the call does not even type-check against
this definition). Evaluated at the failing input: swapping a 100-sample
buffer in while the position is 250 leaves the observable pair
(new buffer, position 250) with 250 out of range for the new buffer. -/
theorem C2_swap_audio_keeps_stale_position :
    (∀ (s : SharedAudio) (new_audio : AudioData),
      (swap_audio s new_audio).position = s.position) ∧
    swap_audio { buffer := bigBuf, position := 250 } smallBuf =
      { buffer := smallBuf, position := 250 } ∧
    smallBuf.samples.length < 250 := by
  refine ⟨fun s new_audio => rfl, rfl, ?_⟩
  simp [smallBuf]

/-- Claim C5 (code bug evidence). The seek half of the claim is what the
code does: seek_by_samples clamps into [0, max_samples], shown here at both
ends (offset -100 from position 10 clamps to 0; offset 2000 from position
990 clamps to 1000). The swap half fails on this snapshot: swap_audio
(src/src/audio/playback.rs lines 223-226) never rewrites the position, so
immediately after swapping a 100-sample buffer in at position 250 the
shared state violates 0 ≤ position ≤ sample_count — the clamped values
main.rs lines 200-210 and 336-370 compute are passed to a 3-argument
swap_audio that does not exist here and are never stored. -/
theorem C5_swap_position_invariant_fails :
    seek_by_samples 10 (-100) 1000 = 0 ∧
    seek_by_samples 990 2000 1000 = 1000 ∧
    (swap_audio { buffer := bigBuf, position := 250 } smallBuf).position = 250 ∧
    smallBuf.samples.length < 250 := by
  refine ⟨by decide, by decide, rfl, ?_⟩
  simp [smallBuf]

/-- Claim C6: when the new buffer's channel count differs from the old one
(both positive), the position rescale of src/src/main.rs lines 186-191
computes min ((old position / old channels) * new channels) (new sample
count) with integer division — stated independently from the spec as
channelRemapSpec — and the spec's example holds: old channels 2, new
channels 1, old position 200 gives 100. -/
theorem C6_channel_remap (old_channels : ℕ) (new_audio : AudioData)
    (current_pos reloaded_pos : ℕ) (hne : old_channels ≠ new_audio.channels)
    (ho : 0 < old_channels) (hn : 0 < new_audio.channels) :
    (synthesisDonePosition old_channels new_audio current_pos reloaded_pos).1 =
      channelRemapSpec old_channels new_audio.channels current_pos
        new_audio.samples.length ∧
    (synthesisDonePosition 2 bigBuf 200 100).1 = 100 := by
  constructor
  · simp [synthesisDonePosition, channelRemap, channelRemapSpec, hne, ho, hn]
  · norm_num [synthesisDonePosition, channelRemap, bigBuf]

/-- Witness for C6 at concrete inputs: stereo old buffer, mono 1000-sample
new buffer, old position 200. -/
theorem C6_channel_remap_witness :
    (2 : ℕ) ≠ bigBuf.channels ∧ 0 < (2 : ℕ) ∧ 0 < bigBuf.channels ∧
    ((synthesisDonePosition 2 bigBuf 200 100).1 =
      channelRemapSpec 2 bigBuf.channels 200 bigBuf.samples.length ∧
     (synthesisDonePosition 2 bigBuf 200 100).1 = 100) :=
  ⟨by decide, by decide, by decide,
    C6_channel_remap 2 bigBuf 200 100 (by decide) (by decide) (by decide)⟩

/-- Claim C7: the A/B toggle position rescale of src/src/main.rs lines
338-356 agrees, whenever the two buffer lengths differ, with the spec's
formula (round the proportional fraction of the new length, clamp to the
new length, 0 when the old length is zero), and the spec's example holds:
old length 1000, new length 500, old position 250 gives 125. The f64
arithmetic is modelled by exact rationals, on which these operations are
exact. -/
theorem C7_ab_rescale (old_len new_len pos : ℕ) (hne : old_len ≠ new_len) :
    abTogglePosition old_len new_len pos = abRescaleSpec old_len new_len pos ∧
    abTogglePosition 1000 500 250 = 125 := by
  constructor
  · rw [abTogglePosition, abRescaleSpec, if_pos hne]
    rcases Nat.eq_zero_or_pos old_len with h0 | hpos
    · subst h0
      rw [if_neg (lt_irrefl 0), if_neg (lt_irrefl 0)]
      have hf : roundHalfUp ((0 : ℚ) * (new_len : ℚ)) = 0 := by
        rw [roundHalfUp, Int.floor_eq_iff] <;> norm_num
      rw [hf, min_eq_left (Int.natCast_nonneg new_len)]
      rfl
    · rw [if_pos hpos, if_pos hpos]
  · have hq : ((250 : ℕ) : ℚ) / ((1000 : ℕ) : ℚ) * ((500 : ℕ) : ℚ) = 125 := by
      norm_num
    have hf : roundHalfUp (((250 : ℕ) : ℚ) / ((1000 : ℕ) : ℚ) * ((500 : ℕ) : ℚ)) =
        125 := by
      rw [hq, roundHalfUp, Int.floor_eq_iff] <;> norm_num
    rw [abTogglePosition, if_pos (by norm_num), if_pos (by norm_num), hf]
    norm_num
    rfl

/-- Witness for C7 at the spec's example input. -/
theorem C7_ab_rescale_witness :
    (1000 : ℕ) ≠ 500 ∧
    (abTogglePosition 1000 500 250 = abRescaleSpec 1000 500 250 ∧
     abTogglePosition 1000 500 250 = 125) :=
  ⟨by decide, C7_ab_rescale 1000 500 250 (by decide)⟩

/-- The chunk lengths of one invocation cover the whole output slice. -/
theorem chunkSizes_sum (outLen dc : ℕ) : (chunkSizes outLen dc).sum = outLen := by
  rw [chunkSizes]
  by_cases h0 : outLen % dc = 0
  · simp only [h0, ite_true, List.append_nil, List.sum_replicate, smul_eq_mul]
    exact Nat.div_mul_cancel (Nat.dvd_of_mod_eq_zero h0)
  · simp only [h0, ite_false, List.sum_append, List.sum_replicate, smul_eq_mul,
      List.sum_cons, List.sum_nil, add_zero]
    rw [mul_comm]
    exact Nat.div_add_mod outLen dc

/-- With looping off (or an empty buffer), frames starting at or past the
end emit silence and never move the position. -/
theorem writeChunks_silence (samples : List ℚ) (ac : ℕ) (gain : ℚ) (looping : Bool)
    (h : ¬(looping = true ∧ 0 < samples.length)) :
    ∀ (chunks : List ℕ) (pos : ℕ), samples.length ≤ pos →
      writeChunks samples ac gain looping chunks pos =
        (List.replicate chunks.sum 0, pos) := by
  intro chunks
  induction chunks with
  | nil => intro pos _; simp [writeChunks]
  | cons len rest ih =>
    intro pos hpos
    rw [writeChunks, if_pos hpos, if_neg h, ih pos hpos, List.sum_cons,
      List.replicate_add]

/-- With looping on and a non-empty buffer, a frame starting at or past the
end behaves exactly as a frame starting at position 0. -/
theorem writeChunks_wrap (samples : List ℚ) (ac : ℕ) (gain : ℚ)
    (hlen : 0 < samples.length) (len : ℕ) (rest : List ℕ) (pos : ℕ)
    (hpos : samples.length ≤ pos) :
    writeChunks samples ac gain true (len :: rest) pos =
      writeChunks samples ac gain true (len :: rest) 0 := by
  rw [writeChunks, writeChunks, if_pos hpos, if_pos ⟨rfl, hlen⟩,
    if_neg (by omega : ¬samples.length ≤ 0)]

/-- Claim C4: for a playing invocation that acquires the lock, once the read
position is at or past the buffer length: with looping off the rest of the
invocation is silence and the position never advances (stated both for a
whole invocation and for any remaining frame list mid-invocation); with
looping on and a non-empty buffer the invocation from an at-or-past-end
position is identical to the invocation from position 0 — the position
wraps and output resumes from the start. -/
theorem C4_end_of_stream (a : AudioData) (dc outLen posInit : ℕ) (gain : ℚ)
    (hac : 0 < a.channels) (hdc : 0 < dc) (hpos : a.samples.length ≤ posInit) :
    (write_audio_data true true a dc outLen posInit gain false =
      (List.replicate outLen 0, posInit)) ∧
    (∀ (chunks : List ℕ) (pos : ℕ), a.samples.length ≤ pos →
      writeChunks a.samples a.channels gain false chunks pos =
        (List.replicate chunks.sum 0, pos)) ∧
    (0 < a.samples.length →
      (∀ (len : ℕ) (rest : List ℕ) (pos : ℕ), a.samples.length ≤ pos →
        writeChunks a.samples a.channels gain true (len :: rest) pos =
          writeChunks a.samples a.channels gain true (len :: rest) 0) ∧
      (0 < outLen →
        write_audio_data true true a dc outLen posInit gain true =
          write_audio_data true true a dc outLen 0 gain true)) := by
  have hguard : ¬(a.channels = 0 ∨ dc = 0) := by omega
  have hrun : ∀ (p : ℕ) (looping : Bool),
      write_audio_data true true a dc outLen p gain looping =
        writeChunks a.samples a.channels gain looping (chunkSizes outLen dc) p := by
    intro p looping
    rw [write_audio_data, if_neg (by simp), if_neg (by simp), if_neg hguard]
  refine ⟨?_, ?_, fun hlen => ⟨?_, fun hout => ?_⟩⟩
  · rw [hrun, writeChunks_silence a.samples a.channels gain false (by simp) _ _ hpos,
      chunkSizes_sum]
  · intro chunks pos hp
    exact writeChunks_silence a.samples a.channels gain false (by simp) chunks pos hp
  · intro len rest pos hp
    exact writeChunks_wrap a.samples a.channels gain hlen len rest pos hp
  · rw [hrun, hrun]
    cases hcs : chunkSizes outLen dc with
    | nil =>
      exfalso
      have hsum := chunkSizes_sum outLen dc
      rw [hcs] at hsum
      simp at hsum
      omega
    | cons len rest =>
      exact writeChunks_wrap a.samples a.channels gain hlen len rest posInit hpos

/-- Witness for C4: a playing invocation over a 2-sample mono buffer, device
with one channel, 2 output slots, initial position 5 (past the end). -/
theorem C4_end_of_stream_witness :
    0 < (AudioData.mk [1, 2] 44100 1).channels ∧ 0 < 1 ∧
    (AudioData.mk [1, 2] 44100 1).samples.length ≤ 5 ∧
    ((write_audio_data true true (AudioData.mk [1, 2] 44100 1) 1 2 5 1 false =
        (List.replicate 2 0, 5)) ∧
      (∀ (chunks : List ℕ) (pos : ℕ),
        (AudioData.mk [1, 2] 44100 1).samples.length ≤ pos →
        writeChunks (AudioData.mk [1, 2] 44100 1).samples
            (AudioData.mk [1, 2] 44100 1).channels 1 false chunks pos =
          (List.replicate chunks.sum 0, pos)) ∧
      (0 < (AudioData.mk [1, 2] 44100 1).samples.length →
        (∀ (len : ℕ) (rest : List ℕ) (pos : ℕ),
          (AudioData.mk [1, 2] 44100 1).samples.length ≤ pos →
          writeChunks (AudioData.mk [1, 2] 44100 1).samples
              (AudioData.mk [1, 2] 44100 1).channels 1 true (len :: rest) pos =
            writeChunks (AudioData.mk [1, 2] 44100 1).samples
              (AudioData.mk [1, 2] 44100 1).channels 1 true (len :: rest) 0) ∧
        (0 < 2 →
          write_audio_data true true (AudioData.mk [1, 2] 44100 1) 1 2 5 1 true =
            write_audio_data true true (AudioData.mk [1, 2] 44100 1) 1 2 0 1 true))) :=
  ⟨by decide, by decide, by decide,
    C4_end_of_stream (AudioData.mk [1, 2] 44100 1) 1 2 5 1 (by decide) (by decide)
      (by decide)⟩

/- ----------------------------------------------------------------------
Claim theorems: processing worker.
---------------------------------------------------------------------- -/

/-- Concrete WORLD parameters for witnesses. -/
def pTest : WorldParams :=
  { f0 := [100], temporal_positions := [0], spectrogram := [[1]],
    aperiodicity := [[0]], fft_size := 4, frame_period := 5 }

/-- Neutral slider values with bypass off. -/
def slidersNeutral : WorldSliderValues :=
  { pitch_shift := 0, pitch_range := 1, speed := 1, breathiness := 0,
    formant_shift := 0, spectral_tilt := 0, bypass := false }

/-- Non-neutral slider values (pitch shifted), bypass off. -/
def slidersShifted : WorldSliderValues :=
  { slidersNeutral with pitch_shift := 2 }

/-- Neutral effects parameters. -/
def fxNeutral : EffectsParams :=
  { gain_db := 0, low_cut_hz := 20, high_cut_hz := 20000,
    compressor_thresh_db := 0, reverb_mix := 0, pitch_shift_semitones := 0,
    eq := { gains := [] } }

/-- Effects parameters with reverb engaged. -/
def fxReverb : EffectsParams :=
  { fxNeutral with reverb_mix := 1 / 2 }

/-- Concrete externals whose synthesis call succeeds. -/
def extOk : Externals :=
  { analyzePcts := [25, 50, 75, 100]
    worldSysAnalyze := fun _ _ => pTest
    worldSysSynthesize := fun _ _ => Except.ok [0, 0]
    applyEffectsChain := fun samples _ _ => samples
    modifierApply := fun p _ => p
    decodePcts := fun _ => []
    decodeFile := fun _ => Except.error "unreadable"
    scanDir := fun _ => []
    precheckFile := fun _ => Except.ok () }

/-- Concrete externals whose synthesis call fails. -/
def extSynthFail : Externals :=
  { extOk with worldSysSynthesize := fun _ _ => Except.error "output too large" }

/-- A worker state with parameters and a mono baseline cached. -/
def stReady : WorkerState :=
  { cached_params := some pTest, original_mono := some (AudioData.mk [1, 2] 8000 1),
    post_world_audio := some (AudioData.mk [1, 2] 8000 1), sample_rate := 8000 }

/-- A fresh worker state with nothing cached. -/
def stEmpty : WorkerState :=
  { cached_params := none, original_mono := none, post_world_audio := none,
    sample_rate := 0 }

/-- Claim C10: a Resynthesize received with no cached vocoder parameters does
nothing at all — handle_command returns before the drain
(src/src/dsp/processing.rs lines 243-245): no queued command is consumed,
no result of any kind is emitted, the caches are unchanged and the worker
does not exit. -/
theorem C10_resynthesize_without_params (ext : Externals) (w : WorldSliderValues)
    (fx : EffectsParams) (queued : List ProcessingCommand) (st : WorkerState)
    (h : st.cached_params = none) :
    handle_command ext (ProcessingCommand.Resynthesize w fx) queued st =
      { st := st, out := [], rest := queued, stop := false } := by
  rw [handle_command]
  simp [h]

/-- Witness for C10: a Resynthesize against the empty worker state, with
another Resynthesize queued behind it. -/
theorem C10_resynthesize_without_params_witness :
    stEmpty.cached_params = none ∧
    handle_command extOk (ProcessingCommand.Resynthesize slidersShifted fxNeutral)
        [ProcessingCommand.Resynthesize slidersNeutral fxNeutral] stEmpty =
      { st := stEmpty, out := [],
        rest := [ProcessingCommand.Resynthesize slidersNeutral fxNeutral],
        stop := false } :=
  ⟨rfl, C10_resynthesize_without_params extOk slidersShifted fxNeutral
    [ProcessingCommand.Resynthesize slidersNeutral fxNeutral] stEmpty rfl⟩

/-- Claim C9: when the external synthesis call of stage 2 fails, the
resynthesize pipeline emits the two stage statuses and one Synthesis-error
Status, emits no SynthesisDone, and leaves the worker state — in particular
the cached mono baseline and post-vocoder buffer — exactly as it was
(src/src/dsp/processing.rs lines 141-150). -/
theorem C9_synthesis_failure (ext : Externals) (w : WorldSliderValues)
    (fx : EffectsParams) (st : WorkerState) (p : WorldParams) (e : String)
    (hb : w.bypass = false) (hn : w.is_neutral = false)
    (hp : st.cached_params = some p)
    (hs : ext.worldSysSynthesize (ext.modifierApply p w) st.sample_rate =
      Except.error e) :
    run_resynthesize ext w fx st =
      { st := st,
        out := [ProcessingResult.Status "Modifying parameters... (1/3)",
          ProcessingResult.Status "Synthesizing voice... (2/3)",
          ProcessingResult.Status ("Synthesis error: " ++ e)],
        ok := false } ∧
    ∀ b : AudioData,
      ProcessingResult.SynthesisDone b ∉ (run_resynthesize ext w fx st).out := by
  have hmain : run_resynthesize ext w fx st =
      { st := st,
        out := [ProcessingResult.Status "Modifying parameters... (1/3)",
          ProcessingResult.Status "Synthesizing voice... (2/3)",
          ProcessingResult.Status ("Synthesis error: " ++ e)],
        ok := false } := by
    rw [run_resynthesize]
    simp [hb, hn, hp, world_synthesize, hs, Except.map]
  refine ⟨hmain, fun b => ?_⟩
  rw [hmain]
  simp

/-- Witness for C9: shifted sliders, cached parameters, failing synthesis
oracle. -/
theorem C9_synthesis_failure_witness :
    slidersShifted.bypass = false ∧ slidersShifted.is_neutral = false ∧
    stReady.cached_params = some pTest ∧
    extSynthFail.worldSysSynthesize (extSynthFail.modifierApply pTest slidersShifted)
        stReady.sample_rate = Except.error "output too large" ∧
    (run_resynthesize extSynthFail slidersShifted fxReverb stReady =
      { st := stReady,
        out := [ProcessingResult.Status "Modifying parameters... (1/3)",
          ProcessingResult.Status "Synthesizing voice... (2/3)",
          ProcessingResult.Status ("Synthesis error: " ++ "output too large")],
        ok := false } ∧
     ∀ b : AudioData,
       ProcessingResult.SynthesisDone b ∉
         (run_resynthesize extSynthFail slidersShifted fxReverb stReady).out) :=
  ⟨rfl, by decide, rfl, rfl,
    C9_synthesis_failure extSynthFail slidersShifted fxReverb stReady pTest
      "output too large" rfl (by decide) rfl rfl⟩

/-- Is this command a Resynthesize? -/
def isResynCmd : ProcessingCommand → Bool
  | ProcessingCommand.Resynthesize _ _ => true
  | _ => false

/-- The parameter pair retained after draining a queue, starting from the
dequeued command's pair: the slider/effects pair of the last Resynthesize
(the drain also folds ReapplyEffects into the effects slot, but claim C1
concerns pure Resynthesize bursts). -/
def lastResynParams (p : WorldSliderValues × EffectsParams) :
    List ProcessingCommand → WorldSliderValues × EffectsParams
  | [] => p
  | ProcessingCommand.Resynthesize w f :: rest => lastResynParams (w, f) rest
  | _ :: rest => lastResynParams p rest

/-- Is this result a SynthesisDone? -/
def isSynthesisDone : ProcessingResult → Bool
  | ProcessingResult.SynthesisDone _ => true
  | _ => false

/-- Number of SynthesisDone results in a result list. -/
def countSynthesisDone (out : List ProcessingResult) : ℕ :=
  out.countP isSynthesisDone

/-- One resynthesize pipeline run emits at most one SynthesisDone. -/
theorem countSynthesisDone_run_resynthesize (ext : Externals)
    (w : WorldSliderValues) (fx : EffectsParams) (st : WorkerState) :
    countSynthesisDone (run_resynthesize ext w fx st).out ≤ 1 := by
  rw [run_resynthesize]
  split
  · split <;> simp [countSynthesisDone, isSynthesisDone]
  · rcases st.cached_params with _ | p
    · simp [countSynthesisDone, isSynthesisDone]
    · simp only []
      split <;> simp [countSynthesisDone, isSynthesisDone]

/-- Draining a queue of Resynthesize commands only replaces the retained
parameter pair: no state change, no output, the queue fully consumed, and
the pair of the last command retained. -/
theorem drainResynthesize_all_resyn (ext : Externals)
    (qs : List ProcessingCommand) (hq : ∀ c ∈ qs, isResynCmd c = true) :
    ∀ (lw : WorldSliderValues) (lf : EffectsParams) (st : WorkerState)
      (out : List ProcessingResult),
      drainResynthesize ext qs lw lf st out =
        { tag := DrainTag.drained (lastResynParams (lw, lf) qs).1
            (lastResynParams (lw, lf) qs).2,
          st := st, out := out, rest := [] } := by
  induction qs with
  | nil => intro lw lf st out; rfl
  | cons c rest ih =>
    intro lw lf st out
    have hc := hq c (List.mem_cons_self c rest)
    have hrest : ∀ x ∈ rest, isResynCmd x = true :=
      fun x hx => hq x (List.mem_cons_of_mem _ hx)
    cases c with
    | Resynthesize w f => rw [drainResynthesize, ih hrest w f st out]; rfl
    | Load path => simp [isResynCmd] at hc
    | ScanDirectory p => simp [isResynCmd] at hc
    | PrecheckAudio path => simp [isResynCmd] at hc
    | Analyze a => simp [isResynCmd] at hc
    | ReapplyEffects fx => simp [isResynCmd] at hc
    | Shutdown => simp [isResynCmd] at hc

/-- Claim C1: when a Resynthesize is dequeued with parameters cached and the
queue holds only Resynthesize commands, the handler consumes the whole
queue, performs exactly one resynthesis — its state change and its emitted
results are those of a single run_resynthesize with the parameter pair of
the last command — and the whole output carries at most one SynthesisDone,
so the superseded parameter sets produce no synthesis work and no
SynthesisDone. -/
theorem C1_coalescing (ext : Externals) (w0 : WorldSliderValues)
    (f0 : EffectsParams) (qs : List ProcessingCommand) (st : WorkerState)
    (p : WorldParams) (hp : st.cached_params = some p)
    (hq : ∀ c ∈ qs, isResynCmd c = true) :
    handle_command ext (ProcessingCommand.Resynthesize w0 f0) qs st =
      { st := (run_resynthesize ext (lastResynParams (w0, f0) qs).1
          (lastResynParams (w0, f0) qs).2 st).st,
        out := (run_resynthesize ext (lastResynParams (w0, f0) qs).1
          (lastResynParams (w0, f0) qs).2 st).out,
        rest := [], stop := false } ∧
    countSynthesisDone
      (handle_command ext (ProcessingCommand.Resynthesize w0 f0) qs st).out ≤ 1 := by
  have hmain : handle_command ext (ProcessingCommand.Resynthesize w0 f0) qs st =
      { st := (run_resynthesize ext (lastResynParams (w0, f0) qs).1
          (lastResynParams (w0, f0) qs).2 st).st,
        out := (run_resynthesize ext (lastResynParams (w0, f0) qs).1
          (lastResynParams (w0, f0) qs).2 st).out,
        rest := [], stop := false } := by
    rw [handle_command]
    simp only [hp, Option.isNone_some, Bool.false_eq_true, if_false, ite_false]
    rw [drainResynthesize_all_resyn ext qs hq w0 f0 st []]
    simp
  refine ⟨hmain, ?_⟩
  rw [hmain]
  exact countSynthesisDone_run_resynthesize ext _ _ st

/-- Witness for C1: a burst of three Resynthesize commands; the retained pair
is the third one's. -/
theorem C1_coalescing_witness :
    stReady.cached_params = some pTest ∧
    (∀ c ∈ [ProcessingCommand.Resynthesize slidersNeutral fxNeutral,
        ProcessingCommand.Resynthesize slidersShifted fxReverb],
      isResynCmd c = true) ∧
    (handle_command extOk (ProcessingCommand.Resynthesize slidersShifted fxNeutral)
        [ProcessingCommand.Resynthesize slidersNeutral fxNeutral,
          ProcessingCommand.Resynthesize slidersShifted fxReverb] stReady =
      { st := (run_resynthesize extOk
          (lastResynParams (slidersShifted, fxNeutral)
            [ProcessingCommand.Resynthesize slidersNeutral fxNeutral,
              ProcessingCommand.Resynthesize slidersShifted fxReverb]).1
          (lastResynParams (slidersShifted, fxNeutral)
            [ProcessingCommand.Resynthesize slidersNeutral fxNeutral,
              ProcessingCommand.Resynthesize slidersShifted fxReverb]).2 stReady).st,
        out := (run_resynthesize extOk
          (lastResynParams (slidersShifted, fxNeutral)
            [ProcessingCommand.Resynthesize slidersNeutral fxNeutral,
              ProcessingCommand.Resynthesize slidersShifted fxReverb]).1
          (lastResynParams (slidersShifted, fxNeutral)
            [ProcessingCommand.Resynthesize slidersNeutral fxNeutral,
              ProcessingCommand.Resynthesize slidersShifted fxReverb]).2 stReady).out,
        rest := [], stop := false } ∧
     countSynthesisDone
       (handle_command extOk
         (ProcessingCommand.Resynthesize slidersShifted fxNeutral)
         [ProcessingCommand.Resynthesize slidersNeutral fxNeutral,
           ProcessingCommand.Resynthesize slidersShifted fxReverb] stReady).out ≤ 1) :=
  ⟨rfl, by decide,
    C1_coalescing extOk slidersShifted fxNeutral
      [ProcessingCommand.Resynthesize slidersNeutral fxNeutral,
        ProcessingCommand.Resynthesize slidersShifted fxReverb] stReady pTest rfl
      (by decide)⟩

/-- Successful analysis caches the mono baseline. -/
theorem run_analyze_ok (ext : Externals) (a : AudioData) (st : WorkerState)
    (hmono : to_mono_f64 a ≠ []) (hsr : a.sample_rate ≠ 0) :
    (run_analyze ext a st).st.original_mono = some (to_mono a) ∧
    (run_analyze ext a st).out =
      (ext.analyzePcts.map
        (fun pct => ProcessingResult.Status ("Analyzing... " ++ toString pct ++ "%")))
      ++ [ProcessingResult.AnalysisDone (to_mono a)] := by
  have hwa : world_analyze ext a =
      Except.ok (ext.worldSysAnalyze (to_mono_f64 a) a.sample_rate) := by
    rw [world_analyze, if_neg (by simpa [List.isEmpty_iff] using hmono), if_neg hsr]
  rw [run_analyze, hwa]
  exact ⟨rfl, rfl⟩

/-- Claim C3 (the Analyze drain arm is modelled from the spec; the variant is
absent from this snapshot's processing.rs, which only has its caller in
src/src/main.rs): an Analyze met while draining is never dropped — it runs
inline (its results are emitted and its cache updates kept) and draining
continues; and for the burst Resynthesize, Analyze, Resynthesize, both the
AnalysisDone of the Analyze and the SynthesisDone of the final Resynthesize
appear in the handler's output. -/
theorem C3_analyze_preserved (ext : Externals) (a : AudioData)
    (w1 w2 : WorldSliderValues) (f1 f2 : EffectsParams) (st : WorkerState)
    (p : WorldParams) (hp : st.cached_params = some p)
    (hmono : to_mono_f64 a ≠ []) (hsr : a.sample_rate ≠ 0)
    (hb : w2.bypass = true) :
    (∀ (rest : List ProcessingCommand) (lw : WorldSliderValues)
       (lf : EffectsParams) (st2 : WorkerState) (out : List ProcessingResult),
      drainResynthesize ext (ProcessingCommand.Analyze a :: rest) lw lf st2 out =
        drainResynthesize ext rest lw lf (run_analyze ext a st2).st
          (out ++ (run_analyze ext a st2).out)) ∧
    ProcessingResult.AnalysisDone (to_mono a) ∈
      (handle_command ext (ProcessingCommand.Resynthesize w1 f1)
        [ProcessingCommand.Analyze a, ProcessingCommand.Resynthesize w2 f2] st).out ∧
    ProcessingResult.SynthesisDone (apply_fx_chain ext (to_mono a) f2) ∈
      (handle_command ext (ProcessingCommand.Resynthesize w1 f1)
        [ProcessingCommand.Analyze a, ProcessingCommand.Resynthesize w2 f2] st).out := by
  obtain ⟨hst, hout⟩ := run_analyze_ok ext a st hmono hsr
  have hrr : (run_resynthesize ext w2 f2 (run_analyze ext a st).st).out =
      [ProcessingResult.Status "Applying effects... (3/3)",
        ProcessingResult.SynthesisDone (apply_fx_chain ext (to_mono a) f2)] := by
    rw [run_resynthesize]
    simp [hb, hst]
  have hhandle : (handle_command ext (ProcessingCommand.Resynthesize w1 f1)
      [ProcessingCommand.Analyze a, ProcessingCommand.Resynthesize w2 f2] st).out =
      (run_analyze ext a st).out ++
        (run_resynthesize ext w2 f2 (run_analyze ext a st).st).out := by
    rw [handle_command]
    simp only [hp, Option.isNone_some, Bool.false_eq_true, if_false, ite_false]
    rw [drainResynthesize, drainResynthesize, drainResynthesize]
    simp
  refine ⟨fun rest lw lf st2 out => rfl, ?_, ?_⟩
  · rw [hhandle, hout]
    simp
  · rw [hhandle, hrr]
    simp

/-- Witness for C3: a 2-sample mono buffer analyzed mid-burst, final
Resynthesize in bypass. -/
theorem C3_analyze_preserved_witness :
    stReady.cached_params = some pTest ∧
    to_mono_f64 (AudioData.mk [1, 2] 8000 1) ≠ [] ∧
    (AudioData.mk [1, 2] 8000 1).sample_rate ≠ 0 ∧
    { slidersNeutral with bypass := true }.bypass = true ∧
    ((∀ (rest : List ProcessingCommand) (lw : WorldSliderValues)
        (lf : EffectsParams) (st2 : WorkerState) (out : List ProcessingResult),
       drainResynthesize extOk
           (ProcessingCommand.Analyze (AudioData.mk [1, 2] 8000 1) :: rest)
           lw lf st2 out =
         drainResynthesize extOk rest lw lf
           (run_analyze extOk (AudioData.mk [1, 2] 8000 1) st2).st
           (out ++ (run_analyze extOk (AudioData.mk [1, 2] 8000 1) st2).out)) ∧
     ProcessingResult.AnalysisDone (to_mono (AudioData.mk [1, 2] 8000 1)) ∈
       (handle_command extOk (ProcessingCommand.Resynthesize slidersShifted fxNeutral)
         [ProcessingCommand.Analyze (AudioData.mk [1, 2] 8000 1),
           ProcessingCommand.Resynthesize { slidersNeutral with bypass := true }
             fxReverb] stReady).out ∧
     ProcessingResult.SynthesisDone
         (apply_fx_chain extOk (to_mono (AudioData.mk [1, 2] 8000 1)) fxReverb) ∈
       (handle_command extOk (ProcessingCommand.Resynthesize slidersShifted fxNeutral)
         [ProcessingCommand.Analyze (AudioData.mk [1, 2] 8000 1),
           ProcessingCommand.Resynthesize { slidersNeutral with bypass := true }
             fxReverb] stReady).out) :=
  ⟨rfl, by simp [to_mono_f64], by decide, rfl,
    C3_analyze_preserved extOk (AudioData.mk [1, 2] 8000 1) slidersShifted
      { slidersNeutral with bypass := true } fxNeutral fxReverb stReady pTest rfl
      (by simp [to_mono_f64]) (by decide) rfl⟩

/-- Claim C8: a command whose dispatch panics makes the loop emit exactly one
internal-error Status after whatever the dispatch had already sent, clear
all three worker-private caches, and continue the loop on the remaining
commands instead of terminating (src/src/dsp/processing.rs lines 183-203). -/
theorem C8_panic_isolation (ext : Externals)
    (po : ProcessingCommand → List ProcessingCommand → WorkerState →
      Option PanicInfo)
    (c : ProcessingCommand) (q : List ProcessingCommand) (st : WorkerState)
    (pinfo : PanicInfo) (h : po c q st = some pinfo) :
    processing_loop ext po (c :: q) st =
      pinfo.partialOut ++
        [ProcessingResult.Status ("Internal error: " ++ pinfo.msg)] ++
        processing_loop ext po (q.drop pinfo.consumed) (clearCaches pinfo.midState) ∧
    (clearCaches pinfo.midState).cached_params = none ∧
    (clearCaches pinfo.midState).original_mono = none ∧
    (clearCaches pinfo.midState).post_world_audio = none := by
  refine ⟨?_, rfl, rfl, rfl⟩
  rw [processing_loop, h]

/-- A panic oracle for the witness: the first Shutdown dispatch panics with
message boom, nothing pre-emitted, nothing consumed. -/
def poBoom : ProcessingCommand → List ProcessingCommand → WorkerState →
    Option PanicInfo := fun c _ st =>
  match c with
  | ProcessingCommand.Shutdown =>
    some { msg := "boom", partialOut := [], consumed := 0, midState := st }
  | _ => none

/-- Witness for C8: a panicking Shutdown dispatch followed by a queued
ScanDirectory, which the surviving loop still serves. -/
theorem C8_panic_isolation_witness :
    poBoom ProcessingCommand.Shutdown [ProcessingCommand.ScanDirectory "x"] stReady =
      some { msg := "boom", partialOut := [], consumed := 0, midState := stReady } ∧
    (processing_loop extOk poBoom
        [ProcessingCommand.Shutdown, ProcessingCommand.ScanDirectory "x"] stReady =
      [] ++ [ProcessingResult.Status ("Internal error: " ++ "boom")] ++
        processing_loop extOk poBoom
          ([ProcessingCommand.ScanDirectory "x"].drop 0) (clearCaches stReady) ∧
     (clearCaches stReady).cached_params = none ∧
     (clearCaches stReady).original_mono = none ∧
     (clearCaches stReady).post_world_audio = none) :=
  ⟨rfl, C8_panic_isolation extOk poBoom ProcessingCommand.Shutdown
    [ProcessingCommand.ScanDirectory "x"] stReady
    { msg := "boom", partialOut := [], consumed := 0, midState := stReady } rfl⟩

end VoiceForge
